import Mathlib

/-!
Shallow embedding of the safetycare fall-detection core
(backend/src/safetycare/services/detection_pipeline.py and
backend/src/safetycare/services/rtsp_client.py).

Conventions of the embedding:
* Python floats are modelled as rationals; every threshold constant of the
  source appears literally (0.2 = 1/5, 2.5 = 5/2, 0.85 = 17/20, ...).
* `time.time()` readings are passed explicitly as a `now : ℚ` parameter;
  within one frame the source may read the clock more than once, the model
  uses a single reading for the frame.
* Python `collections.deque` with `maxlen` is a list, newest element last,
  evicting from the front beyond capacity (`appendBounded`).
* The float `np.arctan2`-in-degrees computation inside
  `_calculate_body_angle` is the only non-rational arithmetic in the
  pipeline; it is abstracted as an explicit function parameter `atan2deg`,
  while all guards around it (landmark count, visibility, clamping to
  [0, 90]) are transcribed exactly.
-/

namespace SafetyCare

/-- Person posture from `models/detection.py` (`PersonState`). -/
inductive PersonState where
  | standing
  | sitting
  | lying
  | falling
  | unknown
  deriving DecidableEq, Repr

/-- One pose landmark: normalized coordinates plus a visibility confidence
(`models/detection.py`, `PoseLandmark`; the `id`/`name` metadata carries no
information used by the pipeline and is omitted). -/
structure PoseLandmark where
  x : ℚ
  y : ℚ
  z : ℚ
  visibility : ℚ
  deriving DecidableEq, Repr

instance : Inhabited PoseLandmark := ⟨⟨0, 0, 0, 0⟩⟩

/-- Append on a bounded deque of capacity `cap`: the new element goes to the back and
the oldest elements are evicted from the front once the capacity is
exceeded. -/
def appendBounded (cap : ℕ) (xs : List α) (x : α) : List α :=
  let ys := xs ++ [x]
  ys.drop (ys.length - cap)

/-- `PersonTracker` state (detection_pipeline.py lines 106-119).  Histories
are newest-last. -/
structure PersonTracker where
  person_id : ℕ := 0
  state_history : List (ℚ × PersonState × Option ℚ) := []
  position_history : List (ℚ × ℚ) := []
  last_standing_time : ℚ := 0
  fall_detected_time : Option ℚ := none
  fall_cooldown_until : ℚ := 0
  deriving DecidableEq, Repr

/-- The freshly constructed tracker (all dataclass defaults). -/
def initTracker : PersonTracker := {}

namespace PersonTracker

/-- `PersonTracker.add_observation`: append to the two bounded histories
(maxlen 30 and 15) and refresh `last_standing_time` when the state is
STANDING. -/
def add_observation (tr : PersonTracker) (now : ℚ) (state : PersonState)
    (hip_center_y : ℚ) (body_angle : Option ℚ) : PersonTracker :=
  { tr with
    state_history := appendBounded 30 tr.state_history (now, state, body_angle)
    position_history := appendBounded 15 tr.position_history (now, hip_center_y)
    last_standing_time :=
      if state = PersonState.standing then now else tr.last_standing_time }

/-- `PersonTracker.get_vertical_velocity`: slope between the oldest and the
newest of the last 3 position samples; `none` below 3 samples or when the
elapsed time is ≤ 0.01 s. -/
def get_vertical_velocity (tr : PersonTracker) : Option ℚ :=
  if tr.position_history.length < 3 then none
  else
    let positions := tr.position_history.drop (tr.position_history.length - 3)
    let p0 := positions.headD (0, 0)
    let p1 := positions.getLastD (0, 0)
    let dt := p1.1 - p0.1
    if dt ≤ 1 / 100 then none
    else some ((p1.2 - p0.2) / dt)

/-- `PersonTracker.detect_rapid_descent`: velocity defined and above the
threshold. -/
def detect_rapid_descent (tr : PersonTracker) (threshold : ℚ) : Bool :=
  match tr.get_vertical_velocity with
  | none => false
  | some v => decide (threshold < v)

/-- Backward scan of `was_recently_upright` over the reversed history:
stop at the first sample outside the window, succeed at the first
STANDING/SITTING sample inside it. -/
def was_recently_upright_go (now seconds : ℚ) :
    List (ℚ × PersonState × Option ℚ) → Bool
  | [] => false
  | (t, s, _) :: rest =>
    if seconds < now - t then false
    else if s = PersonState.standing ∨ s = PersonState.sitting then true
    else was_recently_upright_go now seconds rest

/-- `PersonTracker.was_recently_upright`. -/
def was_recently_upright (tr : PersonTracker) (now seconds : ℚ) : Bool :=
  was_recently_upright_go now seconds tr.state_history.reverse

/-- `PersonTracker.get_angle_change_rate`: |Δangle|/Δt between the earliest
and latest defined angles among the last 5 samples; `none` below 3 samples
total, below 2 defined angles, or when Δt ≤ 0.01 s. -/
def get_angle_change_rate (tr : PersonTracker) : Option ℚ :=
  if tr.state_history.length < 3 then none
  else
    let recent := (tr.state_history.drop (tr.state_history.length - 5)).filterMap
      (fun e => match e.2.2 with | some a => some (e.1, a) | none => none)
    if recent.length < 2 then none
    else
      let q0 := recent.headD (0, 0)
      let q1 := recent.getLastD (0, 0)
      let dt := q1.1 - q0.1
      if dt ≤ 1 / 100 then none
      else some (|q1.2 - q0.2| / dt)

/-- `PersonTracker.is_in_fall_cooldown`. -/
def is_in_fall_cooldown (tr : PersonTracker) (now : ℚ) : Bool :=
  decide (now < tr.fall_cooldown_until)

/-- `PersonTracker.mark_fall_detected`: record the fall time and start the
cooldown window. -/
def mark_fall_detected (tr : PersonTracker) (now cooldown_seconds : ℚ) :
    PersonTracker :=
  { tr with
    fall_detected_time := some now
    fall_cooldown_until := now + cooldown_seconds }

end PersonTracker

/-- Indexing helper: `landmarks[i]` (all call sites first check that the
list is long enough, so the default is never observable there). -/
def lm (landmarks : List PoseLandmark) (i : ℕ) : PoseLandmark :=
  landmarks.getD i default

/-- `DetectionPipeline._are_shoulders_above_hips` (lines 538-550): with
fewer than 25 landmarks default to `true`; otherwise compare the shoulder
midpoint y with the hip midpoint y (y grows downward). -/
def are_shoulders_above_hips (landmarks : List PoseLandmark) : Bool :=
  if landmarks.length < 25 then true
  else
    let shoulder_y := ((lm landmarks 11).y + (lm landmarks 12).y) / 2
    let hip_y := ((lm landmarks 23).y + (lm landmarks 24).y) / 2
    decide (shoulder_y < hip_y)

/-- `DetectionPipeline._classify_state` (lines 507-536). -/
def classify_state (landmarks : List PoseLandmark) (body_angle : Option ℚ) :
    PersonState × ℚ :=
  match body_angle with
  | none => (PersonState.unknown, 3 / 10)
  | some a =>
    if a < 25 then (PersonState.standing, 9 / 10)
    else if a < 50 then
      if are_shoulders_above_hips landmarks then (PersonState.sitting, 3 / 4)
      else (PersonState.lying, 3 / 5)
    else if a < 70 then (PersonState.lying, 4 / 5)
    else (PersonState.lying, 9 / 10)

/-- `DetectionPipeline._get_hip_center_y` (lines 494-505): `none` with
fewer than 25 landmarks or when either hip has visibility below 0.5. -/
def get_hip_center_y (landmarks : List PoseLandmark) : Option ℚ :=
  if landmarks.length < 25 then none
  else
    let left_hip := lm landmarks 23
    let right_hip := lm landmarks 24
    if left_hip.visibility < 1 / 2 ∨ right_hip.visibility < 1 / 2 then none
    else some ((left_hip.y + right_hip.y) / 2)

/-- `DetectionPipeline._calculate_body_angle` (lines 458-492).  The
landmark-count and visibility guards are transcribed exactly; the float
`np.degrees(np.arctan2(|dx|, -dy))` step is the parameter `atan2deg`
applied to `|dx|` and `-dy`, and its output is clamped to [0, 90] exactly
as in the source. -/
def calculate_body_angle (atan2deg : ℚ → ℚ → ℚ)
    (landmarks : List PoseLandmark) : Option ℚ :=
  if landmarks.length < 25 then none
  else
    let left_shoulder := lm landmarks 11
    let right_shoulder := lm landmarks 12
    let left_hip := lm landmarks 23
    let right_hip := lm landmarks 24
    if left_shoulder.visibility < 1 / 2 ∨ right_shoulder.visibility < 1 / 2 ∨
        left_hip.visibility < 1 / 2 ∨ right_hip.visibility < 1 / 2 then none
    else
      let dx := (left_shoulder.x + right_shoulder.x) / 2 -
        (left_hip.x + right_hip.x) / 2
      let dy := (left_shoulder.y + right_shoulder.y) / 2 -
        (left_hip.y + right_hip.y) / 2
      some (max 0 (min 90 (atan2deg |dx| (-dy))))

/-- `DetectionPipeline._is_fall` (lines 561-621), transcribed guard by
guard: cooldown, LYING, recently upright within 2.5 s, the defined-angle
bound, then rapid descent (threshold 0.2) or rapid angle change (> 30°/s),
with the standing-to-lying fallback over the last 5 samples when neither
rapid indicator holds. -/
def is_fall (now : ℚ) (current_state : PersonState) (tr : PersonTracker)
    (body_angle : Option ℚ) : Bool :=
  if tr.is_in_fall_cooldown now then false
  else if current_state ≠ PersonState.lying then false
  else if ¬ tr.was_recently_upright now (5 / 2) then false
  else if (match body_angle with
           | some a => decide (a < 50)
           | none => false) then false
  else
    let rapid_descent := tr.detect_rapid_descent (1 / 5)
    let rapid_angle_change :=
      match tr.get_angle_change_rate with
      | some r => decide (30 < r)
      | none => false
    if rapid_descent ∨ rapid_angle_change then true
    else if 5 ≤ tr.state_history.length then
      let recent := tr.state_history.drop (tr.state_history.length - 5)
      let had_standing :=
        (recent.take 3).any (fun e => decide (e.2.1 = PersonState.standing))
      had_standing && decide (current_state = PersonState.lying)
    else false

/-- Bounding box of a detection (`models/detection.py`, `BoundingBox`). -/
structure BoundingBox where
  x : ℚ
  y : ℚ
  width : ℚ
  height : ℚ
  deriving DecidableEq, Repr

/-- Minimum of a nonempty rational list, Python `min(xs)` (all call sites
guarantee nonemptiness). -/
def listMin (l : List ℚ) : ℚ := l.foldl min (l.headD 0)

/-- Maximum of a nonempty rational list, Python `max(xs)`. -/
def listMax (l : List ℚ) : ℚ := l.foldl max (l.headD 0)

/-- `DetectionPipeline._calculate_bounding_box` (lines 431-456). -/
def calculate_bounding_box (landmarks : List PoseLandmark) : BoundingBox :=
  if landmarks = [] then { x := 0, y := 0, width := 1, height := 1 }
  else
    let filtered := landmarks.filter (fun p => decide (3 / 10 < p.visibility))
    let visible := if filtered = [] then landmarks else filtered
    let xs := visible.map (fun p => p.x)
    let ys := visible.map (fun p => p.y)
    let x_min := listMin xs
    let x_max := listMax xs
    let y_min := listMin ys
    let y_max := listMax ys
    let padding_x := (x_max - x_min) * (1 / 10)
    let padding_y := (y_max - y_min) * (1 / 10)
    { x := max 0 (x_min - padding_x)
      y := max 0 (y_min - padding_y)
      width := min 1 (x_max - x_min + 2 * padding_x)
      height := min 1 (y_max - y_min + 2 * padding_y) }

/-- One person of a detection result (`models/detection.py`,
`PersonDetection`; the echoed landmark list is omitted as pure metadata). -/
structure PersonDetection where
  id : String
  bbox : BoundingBox
  state : PersonState
  confidence : ℚ
  body_angle : Option ℚ
  deriving DecidableEq, Repr

/-- `DetectionResult` for one frame (`models/detection.py`); the wall-clock
fields `timestamp` and `processing_time_ms` are measurement metadata and
carry no pipeline state. -/
structure DetectionResult where
  frame_number : ℕ
  persons : List PersonDetection
  fall_detected : Bool
  fall_person_ids : List String
  deriving DecidableEq, Repr

/-- Mutable state of a `DetectionPipeline` instance: the tracker dict
(association list keyed by the `{camera_id}_person_{idx}` string), the
frame counter, the id counter, and the last timestamp handed to the pose
estimator. -/
structure PipelineState where
  person_trackers : List (String × PersonTracker) := []
  frame_count : ℕ := 0
  next_person_id : ℕ := 0
  last_timestamp_ms : ℤ := 0
  deriving DecidableEq, Repr

/-- The freshly constructed pipeline state. -/
def initPipeline : PipelineState := {}

/-- `DetectionPipeline._get_or_create_tracker` (lines 552-559): look the
key up, inserting a fresh tracker with the next person id when absent. -/
def get_or_create_tracker (ps : PipelineState) (key : String) :
    PersonTracker × PipelineState :=
  match ps.person_trackers.lookup key with
  | some tr => (tr, ps)
  | none =>
    let tr : PersonTracker := { person_id := ps.next_person_id + 1 }
    (tr,
     { ps with
       next_person_id := ps.next_person_id + 1
       person_trackers := ps.person_trackers ++ [(key, tr)] })

/-- In-place mutation of the tracker object held by the dict: replace the
value stored at `key` (every call site first runs
`get_or_create_tracker`, so the key is present). -/
def setTracker (ps : PipelineState) (key : String) (tr : PersonTracker) :
    PipelineState :=
  { ps with
    person_trackers :=
      ps.person_trackers.map (fun kv => if kv.1 = key then (key, tr) else kv) }

/-- The tracker dict key `f"{camera_id}_person_{person_idx}"`. -/
def trackerKey (camera_id : String) (person_idx : ℕ) : String :=
  camera_id ++ "_person_" ++ toString person_idx

/-- `DetectionPipeline._process_pose` (lines 358-415): geometry, lazy
tracker resolution, classification, the conditional observation (only when
the hip center is defined), the fall decision, and on confirmation the
escalation to FALLING with confidence at least 0.85 plus the cooldown
marking. -/
def process_pose (atan2deg : ℚ → ℚ → ℚ) (cooldown_seconds now : ℚ)
    (camera_id : String) (person_idx : ℕ) (landmarks : List PoseLandmark)
    (ps : PipelineState) : PersonDetection × PipelineState :=
  let bbox := calculate_bounding_box landmarks
  let body_angle := calculate_body_angle atan2deg landmarks
  let hip_center_y := get_hip_center_y landmarks
  let key := trackerKey camera_id person_idx
  let got := get_or_create_tracker ps key
  let sc := classify_state landmarks body_angle
  let tracker1 :=
    match hip_center_y with
    | some y => got.1.add_observation now sc.1 y body_angle
    | none => got.1
  if is_fall now sc.1 tracker1 body_angle then
    ({ id := key, bbox := bbox, state := PersonState.falling,
       confidence := max sc.2 (17 / 20), body_angle := body_angle },
     setTracker got.2 key (tracker1.mark_fall_detected now cooldown_seconds))
  else
    ({ id := key, bbox := bbox, state := sc.1, confidence := sc.2,
       body_angle := body_angle },
     setTracker got.2 key tracker1)

/-- The per-person loop of `process_frame` (lines 329-341): process each
pose in output order, collect the detections, flag `fall_detected` and
append the id to `fall_person_ids` whenever a person ends in FALLING. -/
def process_persons (atan2deg : ℚ → ℚ → ℚ) (cooldown_seconds now : ℚ)
    (camera_id : String) :
    ℕ → List (List PoseLandmark) → PipelineState →
    List PersonDetection × Bool × List String × PipelineState
  | _, [], ps => ([], false, [], ps)
  | idx, lmks :: rest, ps =>
    let pr := process_pose atan2deg cooldown_seconds now camera_id idx lmks ps
    let tail := process_persons atan2deg cooldown_seconds now camera_id
      (idx + 1) rest pr.2
    (pr.1 :: tail.1,
     (decide (pr.1.state = PersonState.falling) || tail.2.1,
      (if pr.1.state = PersonState.falling then pr.1.id :: tail.2.2.1
       else tail.2.2.1),
      tail.2.2.2))

/-- The timestamp correction of `process_frame` (lines 314-318): a
wall-clock reading at or below the previous value is forced one unit past
it. -/
def fix_timestamp (last reading : ℤ) : ℤ :=
  if reading ≤ last then last + 1 else reading

/-- `DetectionPipeline.process_frame` (lines 289-356).  The external pose
estimator call is represented by its output `poses` (one landmark list per
detected person); `wallclock_ms` is the `int(time.time() * 1000)` reading
taken for the estimator timestamp. -/
def process_frame (atan2deg : ℚ → ℚ → ℚ) (cooldown_seconds now : ℚ)
    (wallclock_ms : ℤ) (camera_id : String)
    (poses : List (List PoseLandmark)) (ps : PipelineState) :
    DetectionResult × PipelineState :=
  let ps0 := { ps with frame_count := ps.frame_count + 1 }
  let ts := fix_timestamp ps0.last_timestamp_ms wallclock_ms
  let ps1 := { ps0 with last_timestamp_ms := ts }
  let out := process_persons atan2deg cooldown_seconds now camera_id 0 poses ps1
  ({ frame_number := ps0.frame_count
     persons := out.1
     fall_detected := out.2.1
     fall_person_ids := out.2.2.1 },
   out.2.2.2)

/-- `StreamState` from rtsp_client.py (lines 21-29). -/
inductive StreamState where
  | disconnected
  | connecting
  | connected
  | streaming
  | reconnecting
  | error
  deriving DecidableEq, Repr

/-- The statistics fields of `StreamStats` that the worker loop mutates
and that the claims mention (the purely informational timing fields
`last_frame_time`, `avg_fps`, `connection_time` are wall-clock metadata
left out of the model). -/
structure StreamStats where
  frames_received : ℕ := 0
  frames_dropped : ℕ := 0
  bytes_received : ℕ := 0
  reconnect_count : ℕ := 0
  deriving DecidableEq, Repr

/-- Observable state of one `RTSPClient`: the public `_state` and
`_error_message`, whether a capture object currently exists, the stats,
and the latest-frame slot.  For verification the model additionally logs
every `_set_state` call (`trace`), every reconnect sleep (`slept`) and
every `on_frame` callback invocation (`forwarded`, the values of
`frames_received` at which the callback fired). -/
structure RTSPSession where
  state : StreamState := StreamState.disconnected
  error_message : Option String := none
  capture : Bool := false
  stats : StreamStats := {}
  last_frame : Option ℕ := none
  trace : List StreamState := []
  slept : List ℚ := []
  forwarded : List ℕ := []
  deriving DecidableEq, Repr

/-- The freshly constructed client (rtsp_client.py lines 71-78). -/
def initSession : RTSPSession := {}

/-- Configuration consumed by the worker loop. -/
structure StreamCfg where
  base_delay : ℚ
  max_attempts : ℕ
  frame_skip : ℕ
  deriving DecidableEq, Repr

/-- `RTSPClient._set_state` (lines 101-112): store the state and the error
message (defaulting to none); the model also appends to the trace log. -/
def set_state (s : RTSPSession) (st : StreamState) (err : Option String) :
    RTSPSession :=
  { s with state := st, error_message := err, trace := s.trace ++ [st] }

/-- `_cleanup_capture` followed by `_set_state(DISCONNECTED)`, the
unconditional cleanup at the bottom of `_stream_loop` (lines 281-283). -/
def cleanup_exit (s : RTSPSession) : RTSPSession :=
  set_state { s with capture := false } StreamState.disconnected none

/-- Outcome of one `_connect` call: `none` = a frame was read within the
timeout, `some msg` = failure/timeout with the exception text `msg`. -/
abbrev ConnectEv := Option String

/-- Outcome of one `capture.read()` call: `some nbytes` = a decoded frame
of `nbytes` bytes, `none` = read failure. -/
abbrev ReadEv := Option ℕ

/-- `RTSPClient._connect` (lines 151-192): set CONNECTING, then on success
set CONNECTED keeping the capture, on failure set ERROR with the message
and release the capture. -/
def connect_step (s : RTSPSession) : ConnectEv → Bool × RTSPSession
  | none =>
    let s1 := set_state s StreamState.connecting none
    (true, { set_state s1 StreamState.connected none with capture := true })
  | some msg =>
    let s1 := set_state s StreamState.connecting none
    (false, { set_state s1 StreamState.error (some msg) with capture := false })

/-- `RTSPClient._stream_loop` (lines 194-283), driven by two oracles for
the external calls (`connects` for `_connect`, `reads` for
`capture.read()`) and by fuel bounding the number of iterations the
`while self._running` condition lets through.  Exhausted fuel or an
exhausted oracle stands for `_running` turning false, after which the
unconditional exit cleanup runs; the `break` on exhausted reconnect
attempts reaches the same exit cleanup.  The frame-skip check at the end
of the loop body is transcribed as the source has it: its `continue` is
the last statement of the body, so both branches continue identically. -/
def stream_loop (cfg : StreamCfg) :
    ℕ → ℕ → List ConnectEv → List ReadEv → RTSPSession → RTSPSession
  | 0, _, _, _, s => cleanup_exit s
  | fuel + 1, attempts, connects, reads, s =>
    if s.state ≠ StreamState.connected ∧ s.state ≠ StreamState.streaming then
      if cfg.max_attempts ≤ attempts then
        cleanup_exit (set_state s StreamState.error
          (some "Max reconnection attempts reached"))
      else
        let s1 :=
          if 0 < attempts then
            let sR := set_state s StreamState.reconnecting none
            let delay := min (cfg.base_delay * 2 ^ attempts) 60
            { sR with
              slept := sR.slept ++ [delay]
              stats := { sR.stats with
                reconnect_count := sR.stats.reconnect_count + 1 } }
          else s
        match connects with
        | [] => cleanup_exit s1
        | ev :: connects1 =>
          let c := connect_step s1 ev
          if c.1 then
            stream_loop cfg fuel 0 connects1 reads
              (set_state c.2 StreamState.streaming none)
          else
            stream_loop cfg fuel (attempts + 1) connects1 reads c.2
    else if ¬ s.capture then
      stream_loop cfg fuel attempts connects reads s
    else
      match reads with
      | [] => cleanup_exit s
      | r :: reads1 =>
        match r with
        | none =>
          let s1 := { s with
            stats := { s.stats with
              frames_dropped := s.stats.frames_dropped + 1 }
            capture := false }
          stream_loop cfg fuel (attempts + 1) connects reads1 s1
        | some nbytes =>
          let s1 := { s with
            stats := { s.stats with
              frames_received := s.stats.frames_received + 1
              bytes_received := s.stats.bytes_received + nbytes } }
          let s2 := { s1 with last_frame := some nbytes }
          let s3 := { s2 with
            forwarded := s2.forwarded ++ [s2.stats.frames_received] }
          if 0 < cfg.frame_skip ∧
              s3.stats.frames_received % (cfg.frame_skip + 1) ≠ 0 then
            stream_loop cfg fuel attempts connects reads1 s3
          else
            stream_loop cfg fuel attempts connects reads1 s3

/-- The fall decision as the specification words it (spec §4.3, "Fall
decision — ALL of the following must hold"): a flat conjunction of the
five conditions, the fifth a plain three-way disjunction.  This definition
follows the words of the spec and is compared against `is_fall`, which is
transcribed from the source. -/
def fallDecisionSpec (now : ℚ) (current_state : PersonState)
    (tr : PersonTracker) (body_angle : Option ℚ) : Prop :=
  tr.is_in_fall_cooldown now = false
  ∧ current_state = PersonState.lying
  ∧ tr.was_recently_upright now (5 / 2) = true
  ∧ (∀ a : ℚ, body_angle = some a → 50 ≤ a)
  ∧ (tr.detect_rapid_descent (1 / 5) = true
     ∨ (∃ r : ℚ, tr.get_angle_change_rate = some r ∧ 30 < r)
     ∨ (5 ≤ tr.state_history.length
        ∧ ((tr.state_history.drop (tr.state_history.length - 5)).take 3).any
            (fun e => decide (e.2.1 = PersonState.standing)) = true
        ∧ current_state = PersonState.lying))

/-- The sequence of timestamps handed to the pose estimator over a run of
`process_frame` calls whose wall-clock readings are `rs`, starting from
stored value `last` (the scan of `fix_timestamp`). -/
def timestamp_trace (last : ℤ) : List ℤ → List ℤ
  | [] => []
  | r :: rs => fix_timestamp last r :: timestamp_trace (fix_timestamp last r) rs

/-- A concrete tracker for evaluating the fall decision: standing samples
at t = 8 and t = 9, lying samples at t = 9.5 and t = 9.75, with the hip
center descending from 0.5 to 0.9 over the last 0.75 s (velocity 8/15). -/
def fallWitnessTracker : PersonTracker :=
  { initTracker with
    state_history := [(8, PersonState.standing, some 10),
      (9, PersonState.standing, some 10),
      (19 / 2, PersonState.lying, some 75),
      (39 / 4, PersonState.lying, some 80)]
    position_history := [(9, 1 / 2), (19 / 2, 7 / 10), (39 / 4, 9 / 10)] }

/-- The tracker state against which `_process_pose` runs the fall check:
the lazily resolved tracker, with the new observation appended exactly
when the hip center is defined. -/
def observedTracker (atan2deg : ℚ → ℚ → ℚ) (now : ℚ) (camera_id : String)
    (person_idx : ℕ) (landmarks : List PoseLandmark) (ps : PipelineState) :
    PersonTracker :=
  let got := get_or_create_tracker ps (trackerKey camera_id person_idx)
  let ba := calculate_body_angle atan2deg landmarks
  match get_hip_center_y landmarks with
  | some y => got.1.add_observation now (classify_state landmarks ba).1 y ba
  | none => got.1

/-! ## Helper lemmas -/

theorem length_appendBounded (cap : ℕ) (xs : List α) (x : α) :
    (appendBounded cap xs x).length = min (xs.length + 1) cap := by
  simp [appendBounded]
  omega

theorem getLastD_appendBounded (cap : ℕ) (hcap : 0 < cap) (xs : List α)
    (x d : α) : (appendBounded cap xs x).getLastD d = x := by
  unfold appendBounded
  have hle : (xs ++ [x]).length - cap ≤ xs.length := by
    simp
    omega
  rw [List.drop_append_of_le_length hle]
  rw [List.getLastD_concat]

/-! ## C3: the posture classification table -/

/-- C3: posture classification returns exactly the table of the spec —
undefined angle ↦ (Unknown, 0.3); angle < 25 ↦ (Standing, 0.9);
25 ≤ angle < 50 ↦ (Sitting, 0.75) when the shoulders are above the hips
and (Lying, 0.6) otherwise; 50 ≤ angle < 70 ↦ (Lying, 0.8);
angle ≥ 70 ↦ (Lying, 0.9). -/
theorem classify_state_table (landmarks : List PoseLandmark) (a : ℚ) :
    classify_state landmarks none = (PersonState.unknown, 3 / 10)
    ∧ (a < 25 →
        classify_state landmarks (some a) = (PersonState.standing, 9 / 10))
    ∧ (25 ≤ a → a < 50 → are_shoulders_above_hips landmarks = true →
        classify_state landmarks (some a) = (PersonState.sitting, 3 / 4))
    ∧ (25 ≤ a → a < 50 → are_shoulders_above_hips landmarks = false →
        classify_state landmarks (some a) = (PersonState.lying, 3 / 5))
    ∧ (50 ≤ a → a < 70 →
        classify_state landmarks (some a) = (PersonState.lying, 4 / 5))
    ∧ (70 ≤ a →
        classify_state landmarks (some a) = (PersonState.lying, 9 / 10)) := by
  refine ⟨rfl, ?_, ?_, ?_, ?_, ?_⟩ <;>
    intros <;> simp only [classify_state] <;> split_ifs <;>
    first
      | rfl
      | linarith
      | simp_all

/-- Witness for C3 at a concrete input: angle 30 with an empty landmark
list (shoulders-above-hips defaults to true) classifies as Sitting with
confidence 0.75. -/
theorem classify_state_table_witness :
    (25 : ℚ) ≤ 30 ∧ (30 : ℚ) < 50 ∧ are_shoulders_above_hips [] = true ∧
      classify_state [] (some 30) = (PersonState.sitting, 3 / 4) :=
  ⟨by norm_num, by norm_num, rfl,
    (classify_state_table [] 30).2.2.1 (by norm_num) (by norm_num) rfl⟩

/-! ## C7: effect of one observation on the track -/

/-- Counterexample for C7 as stated: an observation with posture SITTING
does not update the last-upright timestamp (the source only refreshes
`last_standing_time` on STANDING), so the claimed "if and only if the
observed posture is Standing or Sitting" fails at this input. -/
theorem add_observation_sitting_cx :
    PersonTracker.last_standing_time
      (initTracker.add_observation 5 PersonState.sitting 0 none) ≠ 5 := by
  decide

/-- C7 amended: the last-upright timestamp is updated to the observation
time if and only if the observed posture is STANDING (a SITTING
observation leaves it unchanged); each history buffer receives exactly one
new sample (bounded by its capacity) and the cooldown field is
untouched. -/
theorem add_observation_effect (tr : PersonTracker) (now y : ℚ)
    (s : PersonState) (a : Option ℚ) :
    ((tr.add_observation now s y a).last_standing_time =
      if s = PersonState.standing then now else tr.last_standing_time)
    ∧ (tr.add_observation now s y a).state_history.length =
        min (tr.state_history.length + 1) 30
    ∧ (tr.add_observation now s y a).position_history.length =
        min (tr.position_history.length + 1) 15
    ∧ (tr.add_observation now s y a).state_history.getLastD
        (0, PersonState.unknown, none) = (now, s, a)
    ∧ (tr.add_observation now s y a).position_history.getLastD (0, 0) =
        (now, y)
    ∧ (tr.add_observation now s y a).fall_cooldown_until =
        tr.fall_cooldown_until := by
  refine ⟨rfl, ?_, ?_, ?_, ?_, rfl⟩
  · exact length_appendBounded 30 _ _
  · exact length_appendBounded 15 _ _
  · exact getLastD_appendBounded 30 (by norm_num) _ _ _
  · exact getLastD_appendBounded 15 (by norm_num) _ _ _

/-! ## C2: the cooldown suppresses repeated fall signals -/

/-- C2: confirming a fall at time `t` sets `fall_cooldown_until = t + c`,
and for any tracker carrying that cooldown value (observations never touch
it) every fall check at a time before `t + c` returns false, whatever the
current posture and body angle are. -/
theorem fall_cooldown_suppresses (tr u : PersonTracker) (t c now2 : ℚ)
    (s : PersonState) (a : Option ℚ)
    (h1 : u.fall_cooldown_until = t + c) (h2 : now2 < t + c) :
    (tr.mark_fall_detected t c).fall_cooldown_until = t + c
    ∧ is_fall now2 s u a = false := by
  refine ⟨rfl, ?_⟩
  have hc : u.is_in_fall_cooldown now2 = true := by
    simp only [PersonTracker.is_in_fall_cooldown, h1, decide_eq_true_eq]
    exact h2
  simp [is_fall, hc]

/-- Witness for C2: a fall confirmed at t = 0 with a 10 s cooldown
suppresses a fall check at t = 5. -/
theorem fall_cooldown_suppresses_witness :
    ((initTracker.mark_fall_detected 0 10).fall_cooldown_until = 0 + 10)
    ∧ is_fall 5 PersonState.lying
        { initTracker with fall_cooldown_until := 10 } none = false :=
  fall_cooldown_suppresses initTracker
    { initTracker with fall_cooldown_until := 10 } 0 10 5
    PersonState.lying none (by norm_num) (by norm_num)

/-! ## C8: strictly monotone estimator timestamps -/

theorem lt_fix_timestamp (last r : ℤ) : last < fix_timestamp last r := by
  unfold fix_timestamp
  split <;> omega

theorem chain_timestamp_trace (init : ℤ) (rs : List ℤ) :
    List.Chain (fun a b => a < b) init (timestamp_trace init rs) := by
  induction rs generalizing init with
  | nil => exact List.Chain.nil
  | cons r rs ih =>
    exact List.Chain.cons (lt_fix_timestamp init r) (ih _)

theorem last_ts_get_or_create (ps : PipelineState) (key : String) :
    (get_or_create_tracker ps key).2.last_timestamp_ms =
      ps.last_timestamp_ms := by
  unfold get_or_create_tracker
  cases ps.person_trackers.lookup key <;> rfl

theorem last_ts_process_pose (atan2deg : ℚ → ℚ → ℚ) (c now : ℚ)
    (cam : String) (idx : ℕ) (lms : List PoseLandmark) (ps : PipelineState) :
    (process_pose atan2deg c now cam idx lms ps).2.last_timestamp_ms =
      ps.last_timestamp_ms := by
  unfold process_pose
  dsimp only
  split <;> simp [setTracker, last_ts_get_or_create]

theorem last_ts_process_persons (atan2deg : ℚ → ℚ → ℚ) (c now : ℚ)
    (cam : String) (poses : List (List PoseLandmark)) :
    ∀ (idx : ℕ) (ps : PipelineState),
      (process_persons atan2deg c now cam idx poses ps).2.2.2.last_timestamp_ms
        = ps.last_timestamp_ms := by
  induction poses with
  | nil => intro idx ps; rfl
  | cons lms rest ih =>
    intro idx ps
    show (process_persons atan2deg c now cam (idx + 1) rest
        (process_pose atan2deg c now cam idx lms ps).2).2.2.2.last_timestamp_ms
      = ps.last_timestamp_ms
    rw [ih, last_ts_process_pose]

/-- C8: the timestamp handed to the pose estimator is strictly
monotonically increasing across every sequence of `process_frame` calls:
the scan of the correction function forms a strictly increasing chain, a
wall-clock reading at or below the previous value is replaced by the
previous value plus one, and one `process_frame` call stores exactly the
corrected reading, strictly above the previously stored one. -/
theorem estimator_timestamps_mono (init : ℤ) (rs : List ℤ)
    (atan2deg : ℚ → ℚ → ℚ) (c now : ℚ) (w : ℤ) (cam : String)
    (poses : List (List PoseLandmark)) (ps : PipelineState) :
    List.Chain (fun a b => a < b) init (timestamp_trace init rs)
    ∧ (∀ last r : ℤ, r ≤ last → fix_timestamp last r = last + 1)
    ∧ (process_frame atan2deg c now w cam poses ps).2.last_timestamp_ms
        = fix_timestamp ps.last_timestamp_ms w
    ∧ ps.last_timestamp_ms <
        (process_frame atan2deg c now w cam poses ps).2.last_timestamp_ms := by
  refine ⟨chain_timestamp_trace init rs, ?_, ?_, ?_⟩
  · intro last r h
    simp [fix_timestamp, h]
  · show (process_persons atan2deg c now cam 0 poses
        _).2.2.2.last_timestamp_ms = _
    rw [last_ts_process_persons]
  · show ps.last_timestamp_ms < (process_persons atan2deg c now cam 0 poses
        _).2.2.2.last_timestamp_ms
    rw [last_ts_process_persons]
    exact lt_fix_timestamp _ _

/-- Witness for C8: a wall-clock reading equal to the stored value 3 is
corrected to 4. -/
theorem estimator_timestamps_mono_witness :
    (3 : ℤ) ≤ 3 ∧ fix_timestamp 3 3 = 3 + 1 :=
  ⟨by norm_num,
    (estimator_timestamps_mono 0 [] (fun _ _ => 0) 0 0 0 "cam" []
      initPipeline).2.1 3 3 (by norm_num)⟩

/-! ## C4: the state after exhausting connect retries -/

/-- C4 evaluated at the failing input (max_attempts = 2, every connect
attempt failing): the loop does set ERROR with the max-attempts message
when the retry budget is exhausted, but the unconditional exit cleanup at
the bottom of `_stream_loop` immediately overwrites the state with
DISCONNECTED and clears the error message, so the externally observable
final state is DISCONNECTED with no error — not the terminal Failed/Error
state the claim requires. -/
theorem exhausted_retries_final_state :
    (stream_loop { base_delay := 1, max_attempts := 2, frame_skip := 0 }
        5 0 [some "timeout", some "timeout"] [] initSession).state
      = StreamState.disconnected
    ∧ (stream_loop { base_delay := 1, max_attempts := 2, frame_skip := 0 }
        5 0 [some "timeout", some "timeout"] [] initSession).error_message
      = none
    ∧ (stream_loop { base_delay := 1, max_attempts := 2, frame_skip := 0 }
        5 0 [some "timeout", some "timeout"] [] initSession).trace
      = [StreamState.connecting, StreamState.error, StreamState.reconnecting,
         StreamState.connecting, StreamState.error, StreamState.error,
         StreamState.disconnected] := by
  refine ⟨?_, ?_, ?_⟩ <;> decide

/-! ## C6: the frame-skip factor and the consumer callback -/

/-- C6 evaluated at the failing input (frame_skip = 1, one successful
connect, three successfully decoded frames): the consumer callback fires
on every decoded frame (forwarded counts 1, 2, 3), not only on every
second one, because the skip check sits after the callback and its
`continue` is the last statement of the loop body; statistics and the
latest-frame slot are updated on every frame as well. -/
theorem frame_skip_dead_code :
    (stream_loop { base_delay := 1, max_attempts := 5, frame_skip := 1 }
        6 0 [none] [some 7, some 7, some 7] initSession).forwarded
      = [1, 2, 3]
    ∧ (stream_loop { base_delay := 1, max_attempts := 5, frame_skip := 1 }
        6 0 [none] [some 7, some 7, some 7] initSession).stats.frames_received
      = 3
    ∧ (stream_loop { base_delay := 1, max_attempts := 5, frame_skip := 1 }
        6 0 [none] [some 7, some 7, some 7] initSession).last_frame
      = some 7 := by
  refine ⟨?_, ?_, ?_⟩ <;> decide

/-! ## C5: the reconnect backoff sequence -/

/-- Counterexample for C5 as stated: with base delay 1, the wait before
the first retry (after one failed connect attempt) is
min(1 · 2¹, 60) = 2 seconds, not base · 2⁰ = 1 second as the formula
`base_delay * 2^(k-1)` of the claim requires. -/
theorem reconnect_delay_cx :
    (stream_loop { base_delay := 1, max_attempts := 5, frame_skip := 0 }
        2 0 [some "timeout", some "timeout"] [] initSession).slept = [2]
    ∧ (2 : ℚ) ≠ 1 := by
  refine ⟨?_, ?_⟩
  · norm_num [stream_loop, initSession, connect_step, set_state, cleanup_exit,
      min_def]
    decide
  · norm_num

theorem slept_of_failure_burst (cfg : StreamCfg) (msg : String)
    (reads : List ReadEv) :
    ∀ (n a : ℕ) (s : RTSPSession),
      s.state ≠ StreamState.connected → s.state ≠ StreamState.streaming →
      1 ≤ a → a + n ≤ cfg.max_attempts →
      (stream_loop cfg n a (List.replicate n (some msg)) reads s).slept
        = s.slept ++ (List.range n).map
            (fun i => min (cfg.base_delay * 2 ^ (a + i)) 60) := by
  intro n
  induction n with
  | zero =>
    intro a s h1 h2 ha hn
    simp [stream_loop, cleanup_exit, set_state]
  | succ n ih =>
    intro a s h1 h2 ha hn
    rw [List.replicate_succ]
    simp only [stream_loop]
    rw [if_pos ⟨h1, h2⟩]
    rw [if_neg (by omega : ¬ cfg.max_attempts ≤ a)]
    rw [if_pos (by omega : 0 < a)]
    dsimp only [connect_step, set_state]
    rw [if_neg (by simp : ¬ (false = true))]
    rw [ih (a + 1) _ (by simp [set_state]) (by simp [set_state]) (by omega)
      (by omega)]
    simp only [set_state]
    rw [List.range_succ_eq_map]
    rw [List.append_assoc]
    congr 1
    simp only [List.map_cons, List.map_map, List.singleton_append, Nat.add_zero]
    congr 1
    apply List.map_congr_left
    intro i _
    have hx : a + (i + 1) = a + 1 + i := by omega
    simp [Function.comp, hx]

/-- C5 amended: during a burst of consecutive connect failures with the
attempt counter at k >= 1, the successive waits are
min(base_delay * 2^k, 60), min(base_delay * 2^(k+1), 60), ... — i.e. the
k-th consecutive retry waits base_delay * 2^k (so the sequence starts at
2*base, not base), each capped at 60 seconds — and a successful connect
makes the loop continue with the attempt counter reset to 0. -/
theorem reconnect_backoff (cfg : StreamCfg) (msg : String)
    (reads : List ReadEv) (n a fuel : ℕ) (cs : List ConnectEv)
    (s s2 : RTSPSession)
    (h1 : s.state ≠ StreamState.connected)
    (h2 : s.state ≠ StreamState.streaming)
    (ha : 1 ≤ a) (hn : a + n ≤ cfg.max_attempts)
    (g1 : s2.state ≠ StreamState.connected)
    (g2 : s2.state ≠ StreamState.streaming)
    (gmax : a < cfg.max_attempts) :
    (stream_loop cfg n a (List.replicate n (some msg)) reads s).slept
      = s.slept ++ (List.range n).map
          (fun i => min (cfg.base_delay * 2 ^ (a + i)) 60)
    ∧ ∃ s3 : RTSPSession,
        stream_loop cfg (fuel + 1) a (none :: cs) reads s2
          = stream_loop cfg fuel 0 cs reads s3 := by
  refine ⟨slept_of_failure_burst cfg msg reads n a s h1 h2 ha hn, ?_⟩
  simp only [stream_loop]
  rw [if_pos ⟨g1, g2⟩, if_neg (by omega : ¬ cfg.max_attempts ≤ a)]
  exact ⟨_, rfl⟩

/-- Witness for the amended C5 at a concrete input: two consecutive
failures from attempt counter 1 wait 2 s then 4 s with base delay 1. -/
theorem reconnect_backoff_witness :
    (stream_loop { base_delay := 1, max_attempts := 5, frame_skip := 0 } 2 1
        (List.replicate 2 (some "timeout")) [] initSession).slept
      = initSession.slept ++ (List.range 2).map
          (fun i => min ((1 : ℚ) * 2 ^ (1 + i)) 60)
    ∧ ∃ s3 : RTSPSession,
        stream_loop { base_delay := 1, max_attempts := 5, frame_skip := 0 }
            (0 + 1) 1 (none :: []) [] initSession
          = stream_loop { base_delay := 1, max_attempts := 5, frame_skip := 0 }
              0 0 [] [] s3 := by
  exact reconnect_backoff
    { base_delay := 1, max_attempts := 5, frame_skip := 0 }
    "timeout" [] 2 1 0 [] initSession initSession
    (by decide) (by decide) (by norm_num) (by norm_num) (by decide) (by decide)
    (by norm_num)

/-! ## C1: the fall decision -/

/-- C1: the fall decision returns true exactly when all of the conditions
of the spec hold — not in cooldown, current posture Lying, recently
upright within 2.5 s, body angle (when defined) at least 50°, and at
least one of rapid descent (velocity > 0.2), rapid angle change
(> 30°/s), or the standing-to-lying fallback over the earliest 3 of the
last 5 posture samples. -/
theorem is_fall_iff (now : ℚ) (s : PersonState) (tr : PersonTracker)
    (a : Option ℚ) :
    is_fall now s tr a = true ↔ fallDecisionSpec now s tr a := by
  unfold is_fall fallDecisionSpec
  cases hc : tr.is_in_fall_cooldown now <;>
    cases hu : tr.was_recently_upright now (5 / 2) <;>
    cases hrd : tr.detect_rapid_descent (1 / 5) <;>
    cases hrate : tr.get_angle_change_rate <;>
    cases a <;>
    simp_all

/-- Witness for C1: on the concrete tracker with recent standing samples,
a lying posture at angle 80° and a descent velocity of 8/15 > 0.2, the
fall decision fires. -/
theorem is_fall_iff_witness :
    is_fall 10 PersonState.lying fallWitnessTracker (some 80) = true :=
  (is_fall_iff 10 PersonState.lying fallWitnessTracker (some 80)).mpr
    ⟨by norm_num [PersonTracker.is_in_fall_cooldown, fallWitnessTracker,
        initTracker],
      rfl,
      by norm_num [PersonTracker.was_recently_upright,
        PersonTracker.was_recently_upright_go, fallWitnessTracker,
        initTracker],
      fun x h => by
        rw [← Option.some.inj h]
        norm_num,
      Or.inl (by norm_num [PersonTracker.detect_rapid_descent,
        PersonTracker.get_vertical_velocity, fallWitnessTracker,
        initTracker])⟩

theorem classify_ne_falling (lms : List PoseLandmark) (ba : Option ℚ) :
    (classify_state lms ba).1 ≠ PersonState.falling := by
  unfold classify_state
  cases ba
  · simp
  · dsimp only
    split_ifs <;> simp

theorem process_pose_falling_iff (atan2deg : ℚ → ℚ → ℚ) (c now : ℚ)
    (cam : String) (idx : ℕ) (lms : List PoseLandmark) (ps : PipelineState) :
    (process_pose atan2deg c now cam idx lms ps).1.state = PersonState.falling
      ↔ is_fall now
          (classify_state lms (calculate_body_angle atan2deg lms)).1
          (observedTracker atan2deg now cam idx lms ps)
          (calculate_body_angle atan2deg lms) = true := by
  unfold process_pose observedTracker
  dsimp only
  split
  next h => simp [h]
  next h =>
    simp only [h, Bool.false_eq_true, iff_false]
    exact classify_ne_falling lms _

theorem process_pose_falling_conf (atan2deg : ℚ → ℚ → ℚ) (c now : ℚ)
    (cam : String) (idx : ℕ) (lms : List PoseLandmark) (ps : PipelineState) :
    (process_pose atan2deg c now cam idx lms ps).1.state = PersonState.falling →
      17 / 20 ≤ (process_pose atan2deg c now cam idx lms ps).1.confidence := by
  unfold process_pose
  dsimp only
  split
  · intro _
    exact le_max_right _ _
  · intro h
    exact absurd h (classify_ne_falling lms _)

theorem process_persons_spec (atan2deg : ℚ → ℚ → ℚ) (c now : ℚ)
    (cam : String) :
    ∀ (poses : List (List PoseLandmark)) (idx : ℕ) (ps : PipelineState),
      (process_persons atan2deg c now cam idx poses ps).2.1 =
        (process_persons atan2deg c now cam idx poses ps).1.any
          (fun p => decide (p.state = PersonState.falling))
      ∧ (process_persons atan2deg c now cam idx poses ps).2.2.1 =
          ((process_persons atan2deg c now cam idx poses ps).1.filter
            (fun p => decide (p.state = PersonState.falling))).map
              (fun p => p.id)
      ∧ ∀ p ∈ (process_persons atan2deg c now cam idx poses ps).1,
          p.state = PersonState.falling → 17 / 20 ≤ p.confidence := by
  intro poses
  induction poses with
  | nil =>
    intro idx ps
    refine ⟨rfl, rfl, ?_⟩
    intro p hp
    simp [process_persons] at hp
  | cons lms rest ih =>
    intro idx ps
    obtain ⟨ih1, ih2, ih3⟩ :=
      ih (idx + 1) (process_pose atan2deg c now cam idx lms ps).2
    refine ⟨?_, ?_, ?_⟩
    · simp only [process_persons, List.any_cons, ih1]
    · by_cases hp : (process_pose atan2deg c now cam idx lms ps).1.state =
        PersonState.falling
      · simp only [process_persons, ih2]
        simp [hp]
      · simp only [process_persons, ih2]
        simp [hp]
    · intro p hp hfall
      simp only [process_persons, List.mem_cons] at hp
      rcases hp with rfl | hp
      · exact process_pose_falling_conf atan2deg c now cam idx lms ps hfall
      · exact ih3 p hp hfall

theorem frame_fall_fields (atan2deg : ℚ → ℚ → ℚ) (c now : ℚ) (cam : String)
    (poses : List (List PoseLandmark)) (ps1 : PipelineState) :
    ((process_persons atan2deg c now cam 0 poses ps1).2.1 = true
      ↔ (process_persons atan2deg c now cam 0 poses ps1).2.2.1 ≠ [])
    ∧ (process_persons atan2deg c now cam 0 poses ps1).2.2.1 =
        ((process_persons atan2deg c now cam 0 poses ps1).1.filter
          (fun p => decide (p.state = PersonState.falling))).map
            (fun p => p.id)
    ∧ ∀ p ∈ (process_persons atan2deg c now cam 0 poses ps1).1,
        p.state = PersonState.falling → 17 / 20 ≤ p.confidence := by
  obtain ⟨h1, h2, h3⟩ := process_persons_spec atan2deg c now cam poses 0 ps1
  refine ⟨?_, h2, h3⟩
  rw [h1, h2]
  simp [List.any_eq_true, List.filter_eq_nil_iff]

/-- C9: in every DetectionResult, `fall_detected` holds exactly when
`fall_person_ids` is non-empty; `fall_person_ids` lists, in output order,
exactly the ids of the persons whose state is Falling; every Falling
person carries confidence at least 0.85; the geometric classifier never
outputs Falling on its own; and the final state of a person is Falling exactly
when the fall decision confirmed it on the observed tracker. -/
theorem detection_result_falling (atan2deg : ℚ → ℚ → ℚ) (c now : ℚ)
    (w : ℤ) (cam : String) (poses : List (List PoseLandmark))
    (ps : PipelineState) :
    ((process_frame atan2deg c now w cam poses ps).1.fall_detected = true
      ↔ (process_frame atan2deg c now w cam poses ps).1.fall_person_ids ≠ [])
    ∧ (process_frame atan2deg c now w cam poses ps).1.fall_person_ids =
        (((process_frame atan2deg c now w cam poses ps).1.persons.filter
          (fun p => decide (p.state = PersonState.falling))).map
            (fun p => p.id))
    ∧ (∀ p ∈ (process_frame atan2deg c now w cam poses ps).1.persons,
        p.state = PersonState.falling → 17 / 20 ≤ p.confidence)
    ∧ (∀ (lms : List PoseLandmark) (ba : Option ℚ),
        (classify_state lms ba).1 ≠ PersonState.falling)
    ∧ (∀ (idx : ℕ) (lms : List PoseLandmark) (ps2 : PipelineState),
        (process_pose atan2deg c now cam idx lms ps2).1.state
            = PersonState.falling
          ↔ is_fall now
              (classify_state lms (calculate_body_angle atan2deg lms)).1
              (observedTracker atan2deg now cam idx lms ps2)
              (calculate_body_angle atan2deg lms) = true) := by
  refine ⟨?_, ?_, ?_, fun lms ba => classify_ne_falling lms ba,
    fun idx lms ps2 => process_pose_falling_iff atan2deg c now cam idx lms ps2⟩
  · exact (frame_fall_fields atan2deg c now cam poses _).1
  · exact (frame_fall_fields atan2deg c now cam poses _).2.1
  · exact (frame_fall_fields atan2deg c now cam poses _).2.2

/-- Witness for C9 at a concrete input: one person with an empty landmark
list classifies as Unknown, so no fall is flagged and the id list is
empty. -/
theorem detection_result_falling_witness :
    (DetectionResult.fall_detected
        (process_frame (fun _ _ => 0) 30 0 0 "cam" [[]] initPipeline).1 = true
      ↔ DetectionResult.fall_person_ids
        (process_frame (fun _ _ => 0) 30 0 0 "cam" [[]] initPipeline).1
          ≠ []) :=
  (detection_result_falling (fun _ _ => 0) 30 0 0 "cam" [[]] initPipeline).1

theorem lookup_append_singleton {β : Type} (l : List (String × β))
    (key : String) (v : β) (h : l.lookup key = none) :
    (l ++ [(key, v)]).lookup key = some v := by
  induction l with
  | nil => simp
  | cons kv t ih =>
    obtain ⟨k, w⟩ := kv
    rw [List.cons_append]
    rw [List.lookup_cons] at h ⊢
    cases hk : (key == k)
    · simp only [hk] at h ⊢
      exact ih h
    · rw [hk] at h
      simp at h

theorem lookup_map_replace {β : Type} (l : List (String × β)) (key : String)
    (v : β) (h : (l.lookup key).isSome = true) :
    (l.map (fun kv => if kv.1 = key then (key, v) else kv)).lookup key
      = some v := by
  induction l with
  | nil => simp at h
  | cons kv t ih =>
    obtain ⟨k, w⟩ := kv
    by_cases hk : k = key
    · subst hk
      simp
    · have hb : (key == k) = false := by
        simp only [beq_eq_false_iff_ne, ne_eq]
        exact fun e => hk e.symm
      rw [List.lookup_cons] at h
      simp only [hb] at h
      simp only [List.map_cons]
      rw [if_neg (show ¬ ((k, w).1 = key) from hk)]
      rw [List.lookup_cons]
      simp only [hb]
      exact ih h

theorem lookup_get_or_create (ps : PipelineState) (key : String) :
    (get_or_create_tracker ps key).2.person_trackers.lookup key
      = some (get_or_create_tracker ps key).1 := by
  unfold get_or_create_tracker
  cases h : ps.person_trackers.lookup key with
  | some tr => simpa using h
  | none =>
    dsimp only
    exact lookup_append_singleton _ _ _ h

theorem lookup_setTracker (ps : PipelineState) (key : String)
    (tr : PersonTracker) (h : (ps.person_trackers.lookup key).isSome = true) :
    (setTracker ps key tr).person_trackers.lookup key = some tr := by
  unfold setTracker
  exact lookup_map_replace _ _ _ h

theorem get_hip_center_y_none_iff (lms : List PoseLandmark) :
    get_hip_center_y lms = none ↔
      (lms.length < 25 ∨ (lm lms 23).visibility < 1 / 2 ∨
        (lm lms 24).visibility < 1 / 2) := by
  unfold get_hip_center_y
  dsimp only
  split_ifs with h1 h2
  · exact iff_of_true rfl (Or.inl h1)
  · exact iff_of_true rfl (Or.inr h2)
  · refine iff_of_false (by simp) ?_
    rintro (h | h | h)
    · exact h1 h
    · exact h2 (Or.inl h)
    · exact h2 (Or.inr h)

/-- C10: when the hip center is undefined for a frame, no observation is
recorded in the track — the stored tracker keeps its history buffers and
last-upright timestamp — while a posture and confidence are still
classified and returned, and the fall decision still runs against the
unchanged tracker; the hip center is undefined exactly when there are
fewer than 25 landmarks or either hip has visibility below 0.5. -/
theorem hip_undefined_no_observation (atan2deg : ℚ → ℚ → ℚ) (c now : ℚ)
    (cam : String) (idx : ℕ) (lms : List PoseLandmark) (ps : PipelineState)
    (h : get_hip_center_y lms = none) :
    (((process_pose atan2deg c now cam idx lms ps).2.person_trackers.lookup
        (trackerKey cam idx)).getD initTracker).state_history
      = (get_or_create_tracker ps (trackerKey cam idx)).1.state_history
    ∧ (((process_pose atan2deg c now cam idx lms ps).2.person_trackers.lookup
        (trackerKey cam idx)).getD initTracker).position_history
      = (get_or_create_tracker ps (trackerKey cam idx)).1.position_history
    ∧ (((process_pose atan2deg c now cam idx lms ps).2.person_trackers.lookup
        (trackerKey cam idx)).getD initTracker).last_standing_time
      = (get_or_create_tracker ps (trackerKey cam idx)).1.last_standing_time
    ∧ (process_pose atan2deg c now cam idx lms ps).1.state
      = (if is_fall now
            (classify_state lms (calculate_body_angle atan2deg lms)).1
            (get_or_create_tracker ps (trackerKey cam idx)).1
            (calculate_body_angle atan2deg lms)
         then PersonState.falling
         else (classify_state lms (calculate_body_angle atan2deg lms)).1)
    ∧ (process_pose atan2deg c now cam idx lms ps).1.confidence
      = (if is_fall now
            (classify_state lms (calculate_body_angle atan2deg lms)).1
            (get_or_create_tracker ps (trackerKey cam idx)).1
            (calculate_body_angle atan2deg lms)
         then max (classify_state lms (calculate_body_angle atan2deg lms)).2
            (17 / 20)
         else (classify_state lms (calculate_body_angle atan2deg lms)).2)
    ∧ (get_hip_center_y lms = none ↔
        (lms.length < 25 ∨ (lm lms 23).visibility < 1 / 2 ∨
          (lm lms 24).visibility < 1 / 2)) := by
  have hsome : ((get_or_create_tracker ps
      (trackerKey cam idx)).2.person_trackers.lookup
        (trackerKey cam idx)).isSome = true := by
    rw [lookup_get_or_create]
    rfl
  refine ⟨?_, ?_, ?_, ?_, ?_, get_hip_center_y_none_iff lms⟩ <;>
    unfold process_pose <;> dsimp only <;> simp only [h] <;>
    split_ifs with hf <;>
    first
      | (rw [lookup_setTracker _ _ _ hsome]; rfl)
      | rfl

/-- Witness for C10: an empty landmark list has no hip center; processing
it classifies Unknown with confidence 0.3 and records nothing. -/
theorem hip_undefined_no_observation_witness :
    get_hip_center_y [] = none
    ∧ PersonTracker.state_history
        ((List.lookup (trackerKey "cam" 0)
          (PipelineState.person_trackers
            (Prod.snd (process_pose (fun _ _ => 0) 30 0 "cam" 0 []
              initPipeline)))).getD initTracker)
      = PersonTracker.state_history
          (Prod.fst (get_or_create_tracker initPipeline
            (trackerKey "cam" 0))) :=
  ⟨rfl, (hip_undefined_no_observation (fun _ _ => 0) 30 0 "cam" 0 []
    initPipeline rfl).1⟩

end SafetyCare
